import Mathlib

/-!
The program `sga connect`: pair resolution by walk search

A shallow embedding of `src/SGA/connect.cpp` (`connectMain` and
`parseConnectOptions`) together with the properties of the pair resolver
that are stated about it.

Conventions of the embedding

* The mapping stream `*pReader` is the list of `GmapRecord`s it yields.
* The output stream `*pWriter` is the list of `SeqRecord`s written to it, in order.
* The collaborators that live in other translation units (the string graph,
  `SGSearch::findWalks`, `getPairID`, `getPairBasename`, `SGWalk::getString`)
  are fields of `Env`; every theorem quantifies over all of them.
* `assert` is the checking assert of a default build: a failed assertion ends the run.
* The two `int` counters are embedded as mathematical integers (signed overflow
  is undefined in C++; it would need more than 2^31 pairs in one run).
* Each call of `SGSearch::findWalks` is also recorded in the ghost field `calls`.
  Statements about the arguments of the search are made on the application of
  `Env.findWalks` itself, for every environment, and on the record as well.
-/

namespace SGA

/-! ## Data model -/

/-- Modelled from the spec: the direction class of an edge, declared in a header
that is not part of the sources at hand ("two opposing senses"). `connectMain`
uses the constant `ED_SENSE` and the inversion `operator!`. -/
inductive EdgeDir where
  | ED_SENSE
  | ED_ANTISENSE
  deriving DecidableEq, Repr

/-- Modelled from the spec: `operator!` on `EdgeDir`, "the direction is inverted":
each sense is sent to the opposing one. -/
def EdgeDir.not : EdgeDir → EdgeDir
  | .ED_SENSE => .ED_ANTISENSE
  | .ED_ANTISENSE => .ED_SENSE

/-- The walk-string selector passed to `SGWalk::getString`; `connectMain` only ever
passes `SGWT_START_TO_END`. -/
inductive SGWalkType where
  | SGWT_START_TO_END
  deriving DecidableEq, Repr

/-- Modelled from the spec: the mate record of the mapping stream (`GmapRecord`,
declared in `gmap.h`): "read identity, whether it mapped to a vertex, the mapped
vertex identity, and whether the mapping used the reverse-complement orientation",
plus the original sequence. -/
structure GmapRecord where
  readID : String
  readSeq : String
  isMapped : Bool
  mappedID : String
  isRC : Bool
  deriving DecidableEq, Repr

/-- A sequence record as written to the output: identity and sequence. -/
structure SeqRecord where
  id : String
  seq : String
  deriving DecidableEq, Repr

/-- Modelled from the spec: what `SGSearch::findWalks` hands back, "whatever walks
have been found so far, plus a truncation indicator". `walks` is the content of
the out-parameter `SGWalkVector& walks` after the call. -/
structure SearchResult (W : Type) where
  walks : List W
  truncated : Bool

/-- The arguments of one call of `SGSearch::findWalks` (ghost record). -/
structure SearchCall (V : Type) where
  pX : V
  pY : V
  walkDirection : EdgeDir
  maxDistance : Int
  maxNodes : Nat
  deriving DecidableEq, Repr

/-- The collaborators of `connectMain` that are defined outside `connect.cpp`.
`V` is the type of graph vertices (`Vertex*`), `W` the type of walks (`SGWalk`). -/
structure Env (V W : Type) where
  /-- The call `pGraph->getVertex(id)`; `none` is the `NULL` result. -/
  getVertex : String → Option V
  /-- The call `SGSearch::findWalks(pX, pY, dir, maxDistance, maxNodes, walks)`. -/
  findWalks : V → V → EdgeDir → Int → Nat → SearchResult W
  /-- The identity of the mate of a read. -/
  getPairID : String → String
  /-- The identity shared by both mates of a pair. -/
  getPairBasename : String → String
  /-- The call `walk.getString(type)`. -/
  getString : W → SGWalkType → String

/-- The ways a run of `connectMain` ends early. -/
inductive ConnectAbort where
  /-- The check `assert(good)` failed: a first record without a second one. -/
  | missingMate
  /-- The check `assert(getPairID(record1.readID) == record2.readID)` failed. -/
  | pairingMismatch
  /-- The call `exit(EXIT_SUCCESS)` of `--help` or `--version`. -/
  | exitSuccess
  /-- The call `exit(EXIT_FAILURE)` after a usage error. -/
  | exitFailure
  deriving DecidableEq, Repr

/-- The mutable state of the loop of `connectMain`. -/
structure ConnectState (V : Type) where
  /-- Records written to `*pWriter`, oldest first. -/
  output : List SeqRecord
  numPairsAttempted : Int
  numPairsResolved : Int
  /-- Ghost: the calls of `findWalks` made so far, oldest first. -/
  calls : List (SearchCall V)
  /-- The values printed by the progress line, oldest first. -/
  progress : List Int
  deriving DecidableEq, Repr

/-- The state before the first pair: nothing written, both counters zero. -/
def ConnectState.init (V : Type) : ConnectState V :=
  { output := [], numPairsAttempted := 0, numPairsResolved := 0, calls := [], progress := [] }

/-! ## The loop body of `connectMain` -/

/-- The direction computed at lines 126 to 128: `ED_SENSE`, inverted when the
first record is reverse-complemented. -/
def walkDirectionOf (record1 : GmapRecord) : EdgeDir :=
  if record1.isRC then EdgeDir.not EdgeDir.ED_SENSE else EdgeDir.ED_SENSE

/-- The branch on `walks.size() == 1` (lines 133 to 154): one merged record and a
resolved pair, or the two reads as they came. -/
def writeOutcome {V W : Type} (env : Env V W) (st : ConnectState V)
    (record1 record2 : GmapRecord) (walks : List W) : ConnectState V :=
  match walks with
  | [w] =>
    let resolved : SeqRecord :=
      { id := env.getPairBasename record1.readID,
        seq := env.getString w SGWalkType.SGWT_START_TO_END }
    { st with output := st.output ++ [resolved],
              numPairsResolved := st.numPairsResolved + 1 }
  | _ =>
    let unresolved1 : SeqRecord := { id := record1.readID, seq := record1.readSeq }
    let unresolved2 : SeqRecord := { id := record2.readID, seq := record2.readSeq }
    { st with output := st.output ++ [unresolved1, unresolved2] }

/-- The counter update and progress line that end an attempted pair (lines 155 to 158). -/
def countAttempt {V : Type} (st : ConnectState V) : ConnectState V :=
  let n := st.numPairsAttempted + 1
  { st with numPairsAttempted := n,
            progress := if n % 50000 = 0 then st.progress ++ [n] else st.progress }

/-- One iteration of the `while` loop of `connectMain`, after both records of the
pair have been read (lines 112 to 158), with `opt::maxDistance` as a parameter. -/
def processPair {V W : Type} (env : Env V W) (maxDistance : Int) (st : ConnectState V)
    (record1 record2 : GmapRecord) : Except ConnectAbort (ConnectState V) :=
  if !record1.isMapped || !record2.isMapped then
    Except.ok st
  else if env.getPairID record1.readID != record2.readID then
    Except.error ConnectAbort.pairingMismatch
  else
    match env.getVertex record1.mappedID, env.getVertex record2.mappedID with
    | some pX, some pY =>
      let walkDirection := walkDirectionOf record1
      let found := env.findWalks pX pY walkDirection maxDistance 10000
      let st1 := { st with calls := st.calls ++ [SearchCall.mk pX pY walkDirection maxDistance 10000] }
      Except.ok (countAttempt (writeOutcome env st1 record1 record2 found.walks))
    | _, _ => Except.ok st

/-- The `while` loop of `connectMain` over the records the mapping stream yields. -/
def connectLoop {V W : Type} (env : Env V W) (maxDistance : Int) :
    ConnectState V → List GmapRecord → Except ConnectAbort (ConnectState V)
  | st, [] => Except.ok st
  | _, [_] => Except.error ConnectAbort.missingMate
  | st, record1 :: record2 :: rest =>
    match processPair env maxDistance st record1 record2 with
    | Except.ok st' => connectLoop env maxDistance st' rest
    | Except.error e => Except.error e

/-! ## Command line -/

/-- The variables of `namespace opt`. -/
structure Opt where
  verbose : Nat
  numThreads : Int
  maxDistance : Int
  outFile : String
  unconnectedFile : String
  asqgFile : String
  gmapFile : String
  deriving DecidableEq, Repr

/-- The initial values of the variables of `namespace opt` (lines 62 to 72). -/
def Opt.initial : Opt :=
  { verbose := 0, numThreads := 1, maxDistance := 250, outFile := "",
    unconnectedFile := "unconnected.fa", asqgFile := "", gmapFile := "" }

/-- The short option string of line 74. -/
def shortopts : String := "p:m:e:t:l:s:o:d:v"

/-- The value `OPT_HELP = 1` of the enumeration of line 76, as a `char`. -/
def OPT_HELP : Char := Char.ofNat 1

/-- The value `OPT_VERSION = 2` of the enumeration of line 76, as a `char`. -/
def OPT_VERSION : Char := Char.ofNat 2

/-- One row of the table `longopts`: name, whether an argument is required, and
the value `getopt_long` returns for it. -/
structure LongOpt where
  name : String
  hasArg : Bool
  val : Char
  deriving DecidableEq, Repr

/-- The table `longopts` of lines 78 to 86 (without the terminating null row). -/
def longopts : List LongOpt :=
  [ { name := "verbose", hasArg := false, val := 'v' },
    { name := "threads", hasArg := true, val := 't' },
    { name := "max-distance", hasArg := true, val := 'd' },
    { name := "outfile", hasArg := true, val := 'o' },
    { name := "help", hasArg := false, val := OPT_HELP },
    { name := "version", hasArg := false, val := OPT_VERSION } ]

/-- One return of `getopt_long`: the option character and the value of `optarg`
(`none` for `NULL`). -/
structure GetoptEvent where
  c : Char
  optarg : Option String
  deriving DecidableEq, Repr

/-- How a character is declared in a short option string. -/
inductive ShortKind where
  | unknown
  | flag
  | withArg
  deriving DecidableEq, Repr

/-- Looks a character up in a short option string: a character followed by `:`
takes an argument. -/
def shortKind : List Char → Char → ShortKind
  | [], _ => ShortKind.unknown
  | x :: rest, c =>
    if x = c ∧ c ≠ ':' then
      (match rest with
       | y :: _ => if y = ':' then ShortKind.withArg else ShortKind.flag
       | [] => ShortKind.flag)
    else shortKind rest c

/-- Scans the characters after the dash of one element such as `-vm100`: the
events it yields, and the option that still waits for its argument in the next
element, if any. -/
def scanCluster (so : List Char) : List Char → List GetoptEvent × Option Char
  | [] => ([], none)
  | c :: rest =>
    match shortKind so c with
    | ShortKind.unknown =>
      let r := scanCluster so rest
      ({ c := '?', optarg := none } :: r.1, r.2)
    | ShortKind.flag =>
      let r := scanCluster so rest
      ({ c := c, optarg := none } :: r.1, r.2)
    | ShortKind.withArg =>
      match rest with
      | [] => ([], some c)
      | _ :: _ => ([{ c := c, optarg := some (String.mk rest) }], none)

/-- Splits `name=value` at the first `=`. -/
def splitAtEq : List Char → List Char × Option (List Char)
  | [] => ([], none)
  | c :: rest =>
    if c = '=' then ([], some rest)
    else
      let r := splitAtEq rest
      (c :: r.1, r.2)

/-- Finds a long option by name: an exact match, or else the only row the name
abbreviates. -/
def findLong (lo : List LongOpt) (name : List Char) : Option LongOpt :=
  match lo.filter (fun o => decide (o.name.data = name)) with
  | o :: _ => some o
  | [] =>
    match lo.filter (fun o => name.isPrefixOf o.name.data) with
    | [o] => some o
    | _ => none

/-- The scanning state of `getopt_long` over `argv`. -/
structure GetoptScan where
  events : List GetoptEvent
  operands : List String
  pending : Option Char
  stopped : Bool
  deriving DecidableEq, Repr

/-- The body of a long option, the characters after `--`. -/
def scanLong (lo : List LongOpt) (s : GetoptScan) (body : List Char) : GetoptScan :=
  let nv := splitAtEq body
  match findLong lo nv.1 with
  | none => { s with events := s.events ++ [{ c := '?', optarg := none }] }
  | some o =>
    if o.hasArg then
      (match nv.2 with
       | some v => { s with events := s.events ++ [{ c := o.val, optarg := some (String.mk v) }] }
       | none => { s with pending := some o.val })
    else
      (match nv.2 with
       | some _ => { s with events := s.events ++ [{ c := '?', optarg := none }] }
       | none => { s with events := s.events ++ [{ c := o.val, optarg := none }] })

/-- One element of `argv` as `getopt_long` of the C library treats it: the
argument of a waiting option, an operand, the terminator `--`, a long option or a
cluster of short options. -/
def getoptStep (so : List Char) (lo : List LongOpt) (s : GetoptScan) (a : String) : GetoptScan :=
  match s.pending with
  | some c => { s with events := s.events ++ [{ c := c, optarg := some a }], pending := none }
  | none =>
    if s.stopped then { s with operands := s.operands ++ [a] }
    else
      match a.data with
      | d1 :: d2 :: body =>
        if d1 = '-' ∧ d2 = '-' then
          (match body with
           | [] => { s with stopped := true }
           | _ :: _ => scanLong lo s body)
        else if d1 = '-' then
          let r := scanCluster so (d2 :: body)
          { s with events := s.events ++ r.1, pending := r.2 }
        else { s with operands := s.operands ++ [a] }
      | _ => { s with operands := s.operands ++ [a] }

/-- All returns of the `getopt_long` loop over `argv` (whose first element is the
program name), and the operands left from `optind` on. An option whose argument is
missing at the end of `argv` yields `?`. -/
def getoptLong (so : String) (lo : List LongOpt) (argv : List String) :
    List GetoptEvent × List String :=
  let s := (argv.drop 1).foldl (getoptStep so.data lo)
    { events := [], operands := [], pending := none, stopped := false }
  match s.pending with
  | some _ => (s.events ++ [{ c := '?', optarg := none }], s.operands)
  | none => (s.events, s.operands)

/-- The white space of the classic locale. -/
def isSpace (c : Char) : Bool :=
  c = ' ' || c = '\t' || c = '\n' || c = '\r' || c.toNat = 11 || c.toNat = 12

/-- The value of the leading decimal digits of a character list. -/
def digitsValue : Nat → List Char → Nat
  | acc, [] => acc
  | acc, c :: cs =>
    if c.isDigit then digitsValue (acc * 10 + (c.toNat - 48)) cs else acc

/-- The range of `int`. -/
def clampInt (x : Int) : Int :=
  if x < -2147483648 then -2147483648 else if 2147483647 < x then 2147483647 else x

/-- The extraction `arg >> n` for an `int` variable whose value is `old`: white
space is skipped; when nothing is left (an empty or blank argument) the extraction
does not start and the variable keeps `old`; otherwise a sign and decimal digits
are read, no digits give 0 and a value out of range gives the nearest end of the
range. -/
def readInt (s : String) (old : Int) : Int :=
  match s.data.dropWhile isSpace with
  | [] => old
  | c :: cs =>
    if c = '-' then clampInt (-(digitsValue 0 cs : Int))
    else if c = '+' then clampInt (digitsValue 0 cs)
    else clampInt (digitsValue 0 (c :: cs))

/-- The extraction `arg >> str` for a string: the first word of the argument, or
the old value when there is none. -/
def readWord (s : String) (old : String) : String :=
  match (s.data.dropWhile isSpace).takeWhile (fun c => !isSpace c) with
  | [] => old
  | w => String.mk w

/-- The `switch` of `parseConnectOptions` (lines 184 to 198): the options and the
flag `die` after one return of `getopt_long`. The characters `p`, `m`, `e`, `l`
and `s` have no case. -/
def optionCase (od : Opt × Bool) (ev : GetoptEvent) : Except ConnectAbort (Opt × Bool) :=
  let arg : String := ev.optarg.getD ""
  if ev.c = 'o' then Except.ok ({ od.1 with outFile := readWord arg od.1.outFile }, od.2)
  else if ev.c = 'd' then Except.ok ({ od.1 with maxDistance := readInt arg od.1.maxDistance }, od.2)
  else if ev.c = 't' then Except.ok ({ od.1 with numThreads := readInt arg od.1.numThreads }, od.2)
  else if ev.c = '?' then Except.ok (od.1, true)
  else if ev.c = 'v' then Except.ok ({ od.1 with verbose := od.1.verbose + 1 }, od.2)
  else if ev.c = OPT_HELP then Except.error ConnectAbort.exitSuccess
  else if ev.c = OPT_VERSION then Except.error ConnectAbort.exitSuccess
  else Except.ok od

/-- The `for` loop of `parseConnectOptions` over the returns of `getopt_long`. -/
def optionLoop : Opt × Bool → List GetoptEvent → Except ConnectAbort (Opt × Bool)
  | od, [] => Except.ok od
  | od, ev :: rest =>
    match optionCase od ev with
    | Except.ok od' => optionLoop od' rest
    | Except.error e => Except.error e

/-- The function `parseConnectOptions` (lines 178 to 234). `stripFilename` is the
helper of that name from the utility library. -/
def parseConnectOptions (stripFilename : String → String) (argv : List String) :
    Except ConnectAbort Opt :=
  let g := getoptLong shortopts longopts argv
  match optionLoop (Opt.initial, false) g.1 with
  | Except.error e => Except.error e
  | Except.ok od =>
    let die1 := if g.2.length < 2 then true else if g.2.length > 2 then true else od.2
    let die2 := if od.1.numThreads ≤ 0 then true else die1
    if die2 then Except.error ConnectAbort.exitFailure
    else
      match g.2 with
      | asqg :: gmap :: _ =>
        let o := { od.1 with asqgFile := asqg, gmapFile := gmap }
        if o.outFile.isEmpty then
          let stem := stripFilename o.gmapFile
          Except.ok { o with outFile := stem ++ ".connect.fa",
                             unconnectedFile := stem ++ ".single.fa" }
        else Except.ok o
      | _ => Except.error ConnectAbort.exitFailure

/-! ## The whole run -/

/-- The function `connectMain`: the command line is parsed, then the loop runs
from the empty state with the parsed `opt::maxDistance`. `env` is the graph loaded
from `opt::asqgFile` with the library around it, and `records` are the records the
reader of `opt::gmapFile` yields. The closing summary line is not modelled. -/
def connectMain {V W : Type} (env : Env V W) (stripFilename : String → String)
    (argv : List String) (records : List GmapRecord) :
    Except ConnectAbort (ConnectState V) :=
  match parseConnectOptions stripFilename argv with
  | Except.error e => Except.error e
  | Except.ok o => connectLoop env o.maxDistance (ConnectState.init V) records

/-! ## A small concrete instance

The graph of the scenario with vertices `X`, `M`, `Y` and the walk `X, M, Y`, used
to evaluate the definitions at concrete inputs. -/

/-- Sample mate naming: a final `1` and a final `2` are exchanged; any other
identity has no mate (the empty identity). -/
def sampleGetPairID (id : String) : String :=
  match id.data.reverse with
  | [] => ""
  | c :: r =>
    if c = '1' then String.mk ('2' :: r).reverse
    else if c = '2' then String.mk ('1' :: r).reverse
    else ""

/-- Sample base name: the identity without its last two characters (`/1` or `/2`). -/
def sampleGetPairBasename (id : String) : String :=
  String.mk (id.data.reverse.drop 2).reverse

/-- Sample graph lookup: the vertices are `X`, `M` and `Y`. -/
def sampleGetVertex (id : String) : Option String :=
  if id = "X" ∨ id = "M" ∨ id = "Y" then some id else none

/-- Sample search: from `X` to `Y` in the sense direction the single walk
`X, M, Y` of distance 0 is found when the bound allows it; nothing else is found.
The cap is never reached. -/
def sampleFindWalks (pX pY : String) (dir : EdgeDir) (maxDistance : Int) (_maxNodes : Nat) :
    SearchResult (List String) :=
  if pX = "X" ∧ pY = "Y" ∧ dir = EdgeDir.ED_SENSE ∧ 0 ≤ maxDistance then
    { walks := [["X", "M", "Y"]], truncated := false }
  else { walks := [], truncated := false }

/-- Sample walk string: the vertex names in order. -/
def sampleGetString (w : List String) (_t : SGWalkType) : String :=
  w.foldl (fun acc v => acc ++ v) ""

/-- The sample environment. -/
def sampleEnv : Env String (List String) :=
  { getVertex := sampleGetVertex,
    findWalks := sampleFindWalks,
    getPairID := sampleGetPairID,
    getPairBasename := sampleGetPairBasename,
    getString := sampleGetString }

/-- A sample search result that reports the cap as reached with one walk found so far. -/
def truncatedEnv : Env String (List String) :=
  { sampleEnv with
    findWalks := fun pX pY _ _ _ => { walks := [[pX, pY]], truncated := true } }

/-- First mate of the sample pair, mapped to `X`. -/
def recA1 : GmapRecord :=
  { readID := "readA/1", readSeq := "ACGT", isMapped := true, mappedID := "X", isRC := false }

/-- Second mate of the sample pair, mapped to `Y`. -/
def recA2 : GmapRecord :=
  { readID := "readA/2", readSeq := "TTGA", isMapped := true, mappedID := "Y", isRC := true }

/-- A record that is not the mate of `recA1`. -/
def recB2 : GmapRecord :=
  { readID := "readB/2", readSeq := "GGCC", isMapped := true, mappedID := "Y", isRC := false }

/-- A record like `recA1` that did not map. -/
def recU1 : GmapRecord :=
  { readID := "readA/1", readSeq := "ACGT", isMapped := false, mappedID := "-", isRC := false }

/-- A mate of `recA1` that is mapped to the same vertex `X`. -/
def recA2onX : GmapRecord :=
  { readID := "readA/2", readSeq := "TTGA", isMapped := true, mappedID := "X", isRC := false }

/-- A record like `recA1` whose mapped vertex `Q` is not in the graph. -/
def recA1onQ : GmapRecord :=
  { readID := "readA/1", readSeq := "ACGT", isMapped := true, mappedID := "Q", isRC := false }

/-- A mate of `recA1` mapped to `M`, from which the sample search finds no walk. -/
def recA2onM : GmapRecord :=
  { readID := "readA/2", readSeq := "TTGA", isMapped := true, mappedID := "M", isRC := false }

/-! ## Statements about a pair -/

/-- The pair `record1`, `record2` reaches the search with start `pX` and target
`pY`: both records are mapped, the pairing check passes and both vertices are found. -/
def ReachesSearch {V W : Type} (env : Env V W) (record1 record2 : GmapRecord) (pX pY : V) : Prop :=
  record1.isMapped = true ∧ record2.isMapped = true ∧
  env.getPairID record1.readID = record2.readID ∧
  env.getVertex record1.mappedID = some pX ∧ env.getVertex record2.mappedID = some pY

/-- The state in which the search of a pair has been recorded. -/
def withCall {V : Type} (st : ConnectState V) (pX pY : V) (dir : EdgeDir) (maxDistance : Int) :
    ConnectState V :=
  { st with calls := st.calls ++ [SearchCall.mk pX pY dir maxDistance 10000] }

/-- The accounting invariant of a run: the resolved pairs are among the attempted
ones, and each resolved pair stands for one written record, each other attempted
pair for two. -/
def Accounted {V : Type} (st : ConnectState V) : Prop :=
  0 ≤ st.numPairsResolved ∧ st.numPairsResolved ≤ st.numPairsAttempted ∧
  (st.output.length : Int)
    = st.numPairsResolved + 2 * (st.numPairsAttempted - st.numPairsResolved)

/-! ## Lemmas on the loop body -/

/-- A pair that reaches the search is processed by recording the call, writing the
outcome for the walks found and counting the attempt. -/
lemma processPair_of_reaches {V W : Type} (env : Env V W) (maxDistance : Int)
    (st : ConnectState V) (record1 record2 : GmapRecord) (pX pY : V)
    (h : ReachesSearch env record1 record2 pX pY) :
    processPair env maxDistance st record1 record2
      = Except.ok (countAttempt (writeOutcome env
          (withCall st pX pY (walkDirectionOf record1) maxDistance) record1 record2
          (env.findWalks pX pY (walkDirectionOf record1) maxDistance 10000).walks)) := by
  obtain ⟨h1, h2, h3, h4, h5⟩ := h
  simp [processPair, h1, h2, h3, h4, h5, withCall]

/-- A pair with an unmapped record leaves the state as it was. -/
lemma processPair_of_unmapped {V W : Type} (env : Env V W) (maxDistance : Int)
    (st : ConnectState V) (record1 record2 : GmapRecord)
    (h : record1.isMapped = false ∨ record2.isMapped = false) :
    processPair env maxDistance st record1 record2 = Except.ok st := by
  rcases h with h | h <;> simp [processPair, h]

/-- A mapped pair whose identities do not match ends the run. -/
lemma processPair_of_mismatch {V W : Type} (env : Env V W) (maxDistance : Int)
    (st : ConnectState V) (record1 record2 : GmapRecord)
    (h1 : record1.isMapped = true) (h2 : record2.isMapped = true)
    (hne : env.getPairID record1.readID ≠ record2.readID) :
    processPair env maxDistance st record1 record2
      = Except.error ConnectAbort.pairingMismatch := by
  simp [processPair, h1, h2, hne]

/-- A mapped, correctly paired pair with a vertex that is not in the graph leaves
the state as it was. -/
lemma processPair_of_missing {V W : Type} (env : Env V W) (maxDistance : Int)
    (st : ConnectState V) (record1 record2 : GmapRecord)
    (h1 : record1.isMapped = true) (h2 : record2.isMapped = true)
    (h3 : env.getPairID record1.readID = record2.readID)
    (h : env.getVertex record1.mappedID = none ∨ env.getVertex record2.mappedID = none) :
    processPair env maxDistance st record1 record2 = Except.ok st := by
  rcases h with h | h
  · simp [processPair, h1, h2, h3, h]
  · cases hx : env.getVertex record1.mappedID <;> simp [processPair, h1, h2, h3, h, hx]

/-- The outcome for exactly one walk. -/
lemma writeOutcome_single {V W : Type} (env : Env V W) (st : ConnectState V)
    (record1 record2 : GmapRecord) (w : W) :
    writeOutcome env st record1 record2 [w]
      = { st with
          output := st.output ++ [SeqRecord.mk (env.getPairBasename record1.readID)
            (env.getString w SGWalkType.SGWT_START_TO_END)],
          numPairsResolved := st.numPairsResolved + 1 } := rfl

/-- The outcome for no walk or several walks. -/
lemma writeOutcome_other {V W : Type} (env : Env V W) (st : ConnectState V)
    (record1 record2 : GmapRecord) (walks : List W) (h : walks.length ≠ 1) :
    writeOutcome env st record1 record2 walks
      = { st with
          output := st.output ++ [SeqRecord.mk record1.readID record1.readSeq,
            SeqRecord.mk record2.readID record2.readSeq] } := by
  match walks, h with
  | [], _ => rfl
  | _ :: _ :: _, _ => rfl
  | [_], h => exact absurd rfl h

/-- A list of length one is a single element. -/
lemma eq_single_of_length {W : Type} (walks : List W) (h : walks.length = 1) :
    ∃ w, walks = [w] := by
  match walks, h with
  | [w], _ => exact ⟨w, rfl⟩

/-- Every iteration keeps the accounting invariant. -/
lemma processPair_accounted {V W : Type} (env : Env V W) (maxDistance : Int)
    (st st' : ConnectState V) (record1 record2 : GmapRecord)
    (hst : Accounted st) (h : processPair env maxDistance st record1 record2 = Except.ok st') :
    Accounted st' := by
  unfold processPair at h
  split at h
  · cases h; exact hst
  · split at h
    · cases h
    · split at h
      · cases h
        obtain ⟨h0, h1, h2⟩ := hst
        generalize (env.findWalks _ _ _ _ _).walks = walks
        by_cases hl : walks.length = 1
        · obtain ⟨w, rfl⟩ := eq_single_of_length walks hl
          simp only [Accounted, countAttempt, writeOutcome_single, List.length_append,
            List.length_singleton, Nat.cast_add, Nat.cast_one]
          refine ⟨by omega, by omega, by omega⟩
        · simp only [Accounted, countAttempt, writeOutcome_other _ _ _ _ _ hl,
            List.length_append, List.length_cons, List.length_nil, Nat.cast_add, Nat.cast_one,
            Nat.cast_ofNat]
          refine ⟨by omega, by omega, ?_⟩
          push_cast
          omega
      · cases h; exact hst

/-- The loop keeps the accounting invariant, from any state in which it holds. -/
lemma connectLoop_accounted {V W : Type} (env : Env V W) (maxDistance : Int) :
    ∀ (records : List GmapRecord) (st st' : ConnectState V), Accounted st →
      connectLoop env maxDistance st records = Except.ok st' → Accounted st'
  | [], st, st', hst, h => by
    simp only [connectLoop] at h
    cases h; exact hst
  | [_], _, _, _, h => by simp [connectLoop] at h
  | record1 :: record2 :: rest, st, st', hst, h => by
    simp only [connectLoop] at h
    cases hp : processPair env maxDistance st record1 record2 with
    | error e => simp [hp] at h
    | ok st1 =>
      simp only [hp] at h
      exact connectLoop_accounted env maxDistance rest st1 st'
        (processPair_accounted env maxDistance st st1 record1 record2 hst hp) h

/-- The empty state satisfies the accounting invariant. -/
lemma init_accounted (V : Type) : Accounted (ConnectState.init V) := by
  simp [Accounted, ConnectState.init]

/-- The outcome and the counting of an attempt leave the recorded calls alone. -/
lemma outcome_calls {V W : Type} (env : Env V W) (st : ConnectState V)
    (record1 record2 : GmapRecord) (walks : List W) :
    (countAttempt (writeOutcome env st record1 record2 walks)).calls = st.calls := by
  unfold countAttempt writeOutcome
  split <;> rfl

/-- An empty or blank argument of `-d` and of `-t` leaves the variable as it was:
the run keeps the maximum distance 250 and one thread. -/
lemma parse_blank_argument_keeps_value :
    (parseConnectOptions id ["connect", "-d", "", "g.asqg", "r.gmap"]).map
        (fun o => o.maxDistance) = Except.ok 250 ∧
    (parseConnectOptions id ["connect", "-t", " ", "g.asqg", "r.gmap"]).map
        (fun o => o.numThreads) = Except.ok 1 ∧
    (parseConnectOptions id ["connect", "--max-distance=", "g.asqg", "r.gmap"]).map
        (fun o => o.maxDistance) = Except.ok 250 :=
  ⟨rfl, rfl, rfl⟩

/-! ## The claims -/

/-- Claim C1: for a pair that reaches the search, if the search returns exactly one
walk `w`, the pair is processed without abort and what it adds to the output is
exactly one record, whose identity is `getPairBasename(record1.readID)` and whose
sequence is the start-to-end string of `w`; neither read is written. -/
theorem C1_single_walk_writes_merged_record {V W : Type} (env : Env V W) (maxDistance : Int)
    (st : ConnectState V) (record1 record2 : GmapRecord) (pX pY : V) (w : W)
    (h : ReachesSearch env record1 record2 pX pY)
    (hw : (env.findWalks pX pY (walkDirectionOf record1) maxDistance 10000).walks = [w]) :
    ∃ st', processPair env maxDistance st record1 record2 = Except.ok st' ∧
      st'.output = st.output ++
        [SeqRecord.mk (env.getPairBasename record1.readID)
          (env.getString w SGWalkType.SGWT_START_TO_END)] := by
  refine ⟨_, processPair_of_reaches env maxDistance st record1 record2 pX pY h, ?_⟩
  rw [hw, writeOutcome_single]
  rfl

/-- Witness of C1 on the sample pair: the walk `X, M, Y` is the only one, and the
record `readA` with sequence `XMY` is written. -/
theorem C1_single_walk_witness :
    ReachesSearch sampleEnv recA1 recA2 "X" "Y" ∧
    ∃ st', processPair sampleEnv 250 (ConnectState.init String) recA1 recA2 = Except.ok st' ∧
      st'.output = [] ++ [SeqRecord.mk "readA" "XMY"] :=
  ⟨⟨rfl, rfl, rfl, rfl, rfl⟩,
   C1_single_walk_writes_merged_record sampleEnv 250 (ConnectState.init String) recA1 recA2
     "X" "Y" ["X", "M", "Y"] ⟨rfl, rfl, rfl, rfl, rfl⟩ rfl⟩

/-- Claim C2: for a pair that reaches the search, if the search returns no walk or
two or more walks, the pair is processed without abort and what it adds to the
output is exactly the two records `(record1.readID, record1.readSeq)` and
`(record2.readID, record2.readSeq)`, in this order and unchanged. -/
theorem C2_other_counts_write_both_reads {V W : Type} (env : Env V W) (maxDistance : Int)
    (st : ConnectState V) (record1 record2 : GmapRecord) (pX pY : V)
    (h : ReachesSearch env record1 record2 pX pY)
    (hw : (env.findWalks pX pY (walkDirectionOf record1) maxDistance 10000).walks.length = 0 ∨
      2 ≤ (env.findWalks pX pY (walkDirectionOf record1) maxDistance 10000).walks.length) :
    ∃ st', processPair env maxDistance st record1 record2 = Except.ok st' ∧
      st'.output = st.output ++
        [SeqRecord.mk record1.readID record1.readSeq,
         SeqRecord.mk record2.readID record2.readSeq] := by
  refine ⟨_, processPair_of_reaches env maxDistance st record1 record2 pX pY h, ?_⟩
  rw [writeOutcome_other _ _ _ _ _ (by omega)]
  rfl

/-- Witness of C2: from `X` to `M` the sample search finds no walk, and both reads
are written as they came. -/
theorem C2_other_counts_witness :
    ReachesSearch sampleEnv recA1 recA2onM "X" "M" ∧
    ∃ st', processPair sampleEnv 250 (ConnectState.init String) recA1 recA2onM = Except.ok st' ∧
      st'.output = [] ++ [SeqRecord.mk "readA/1" "ACGT", SeqRecord.mk "readA/2" "TTGA"] :=
  ⟨⟨rfl, rfl, rfl, rfl, rfl⟩,
   C2_other_counts_write_both_reads sampleEnv 250 (ConnectState.init String) recA1 recA2onM
     "X" "M" ⟨rfl, rfl, rfl, rfl, rfl⟩ (Or.inl rfl)⟩

/-- Claim C3 as stated fails: the first record is unmapped and the second record
is not its mate, yet the pair is skipped and the run goes on to its regular end. -/
theorem C3_unmapped_mismatch_is_skipped :
    sampleEnv.getPairID recU1.readID ≠ recB2.readID ∧
    processPair sampleEnv 250 (ConnectState.init String) recU1 recB2
      = Except.ok (ConnectState.init String) ∧
    connectLoop sampleEnv 250 (ConnectState.init String) [recU1, recB2]
      = Except.ok (ConnectState.init String) :=
  ⟨by decide, rfl, rfl⟩

/-- Claim C3, amended: for two consecutive records read as a pair whose second
identity is not the mate identity of the first, the run aborts with the fatal
pairing error when both records are mapped, whatever follows in the stream; the
mapped test comes first, so with an unmapped record the pair is skipped instead. -/
theorem C3_mismatch_aborts_when_both_mapped {V W : Type} (env : Env V W) (maxDistance : Int)
    (st : ConnectState V) (record1 record2 : GmapRecord)
    (hne : env.getPairID record1.readID ≠ record2.readID) :
    (record1.isMapped = true → record2.isMapped = true →
      processPair env maxDistance st record1 record2
        = Except.error ConnectAbort.pairingMismatch ∧
      ∀ rest, connectLoop env maxDistance st (record1 :: record2 :: rest)
        = Except.error ConnectAbort.pairingMismatch) ∧
    ((record1.isMapped = false ∨ record2.isMapped = false) →
      processPair env maxDistance st record1 record2 = Except.ok st) := by
  refine ⟨fun h1 h2 => ?_, fun h => processPair_of_unmapped env maxDistance st record1 record2 h⟩
  have hp := processPair_of_mismatch env maxDistance st record1 record2 h1 h2 hne
  refine ⟨hp, fun rest => ?_⟩
  simp [connectLoop, hp]

/-- Witness of the amended C3: `readA/1` followed by `readB/2`, both mapped, aborts. -/
theorem C3_mismatch_witness :
    sampleEnv.getPairID recA1.readID ≠ recB2.readID ∧
    processPair sampleEnv 250 (ConnectState.init String) recA1 recB2
      = Except.error ConnectAbort.pairingMismatch :=
  ⟨by decide,
   ((C3_mismatch_aborts_when_both_mapped sampleEnv 250 (ConnectState.init String) recA1 recB2
      (by decide)).1 rfl rfl).1⟩

/-- Claim C4 as stated fails: the search reports the cap as reached and returns one
walk; the pair is resolved, one merged record is written and the resolved counter
goes up. -/
theorem C4_truncated_single_walk_is_resolved :
    (truncatedEnv.findWalks "X" "Y" (walkDirectionOf recA1) 250 10000).truncated = true ∧
    processPair truncatedEnv 250 (ConnectState.init String) recA1 recA2
      = Except.ok
          { output := [SeqRecord.mk "readA" "XY"],
            numPairsAttempted := 1,
            numPairsResolved := 1,
            calls := [SearchCall.mk "X" "Y" EdgeDir.ED_SENSE 250 10000],
            progress := [] } :=
  ⟨rfl, rfl⟩

/-- Claim C4, amended: for a pair that reaches the search and whose search reports
the cap as reached, the outcome follows the number of walks returned alone: with
no walk or several walks both reads are written and the resolved counter stays,
and with exactly one walk the merged record is written and the resolved counter
goes up by one. -/
theorem C4_truncation_follows_walk_count {V W : Type} (env : Env V W) (maxDistance : Int)
    (st : ConnectState V) (record1 record2 : GmapRecord) (pX pY : V)
    (h : ReachesSearch env record1 record2 pX pY)
    (_ht : (env.findWalks pX pY (walkDirectionOf record1) maxDistance 10000).truncated = true) :
    ∃ st', processPair env maxDistance st record1 record2 = Except.ok st' ∧
      ((env.findWalks pX pY (walkDirectionOf record1) maxDistance 10000).walks.length ≠ 1 →
        st'.output = st.output ++
          [SeqRecord.mk record1.readID record1.readSeq,
           SeqRecord.mk record2.readID record2.readSeq] ∧
        st'.numPairsResolved = st.numPairsResolved) ∧
      (∀ w, (env.findWalks pX pY (walkDirectionOf record1) maxDistance 10000).walks = [w] →
        st'.output = st.output ++
          [SeqRecord.mk (env.getPairBasename record1.readID)
            (env.getString w SGWalkType.SGWT_START_TO_END)] ∧
        st'.numPairsResolved = st.numPairsResolved + 1) := by
  refine ⟨_, processPair_of_reaches env maxDistance st record1 record2 pX pY h, ?_, ?_⟩
  · intro hl
    rw [writeOutcome_other _ _ _ _ _ hl]
    exact ⟨rfl, rfl⟩
  · intro w hw
    rw [hw, writeOutcome_single]
    exact ⟨rfl, rfl⟩

/-- Witness of the amended C4 on the search that reports the cap with one walk. -/
theorem C4_truncation_witness :
    ReachesSearch truncatedEnv recA1 recA2 "X" "Y" ∧
    (truncatedEnv.findWalks "X" "Y" (walkDirectionOf recA1) 250 10000).truncated = true ∧
    ∃ st', processPair truncatedEnv 250 (ConnectState.init String) recA1 recA2 = Except.ok st' ∧
      st'.numPairsResolved = 0 + 1 :=
  ⟨⟨rfl, rfl, rfl, rfl, rfl⟩, rfl,
   (C4_truncation_follows_walk_count truncatedEnv 250 (ConnectState.init String) recA1 recA2
      "X" "Y" ⟨rfl, rfl, rfl, rfl, rfl⟩ rfl).elim
     (fun st' hst' => ⟨st', hst'.1, (hst'.2.2 ["X", "Y"] rfl).2⟩)⟩

/-- Claim C5 as stated fails: both records of a mapped, correctly paired pair map
to the vertex `X`, and the search is called with start `X` and target `X`. -/
theorem C5_search_called_with_same_vertex :
    sampleEnv.getVertex recA1.mappedID = some "X" ∧
    sampleEnv.getVertex recA2onX.mappedID = some "X" ∧
    processPair sampleEnv 250 (ConnectState.init String) recA1 recA2onX
      = Except.ok
          { output := [SeqRecord.mk "readA/1" "ACGT", SeqRecord.mk "readA/2" "TTGA"],
            numPairsAttempted := 1,
            numPairsResolved := 0,
            calls := [SearchCall.mk "X" "X" EdgeDir.ED_SENSE 250 10000],
            progress := [] } :=
  ⟨rfl, rfl, rfl⟩

/-- Claim C5, amended: the resolver does not tell equal endpoints apart. For every
pair of mapped, correctly paired records whose mapped vertex identities resolve to
the same graph vertex `v`, the search is applied for the pair with start `v` and
target `v` (direction from the first record, the given maximum distance, cap
10000): the state after the pair is the outcome written for the walks that this
application of `findWalks` returns, and the call recorded is this one. -/
theorem C5_same_vertex_pair_is_searched {V W : Type} (env : Env V W) (maxDistance : Int)
    (st : ConnectState V) (record1 record2 : GmapRecord) (v : V)
    (h1 : record1.isMapped = true) (h2 : record2.isMapped = true)
    (h3 : env.getPairID record1.readID = record2.readID)
    (hx : env.getVertex record1.mappedID = some v)
    (hy : env.getVertex record2.mappedID = some v) :
    ∃ st', processPair env maxDistance st record1 record2 = Except.ok st' ∧
      st' = countAttempt (writeOutcome env
          (withCall st v v (walkDirectionOf record1) maxDistance) record1 record2
          (env.findWalks v v (walkDirectionOf record1) maxDistance 10000).walks) ∧
      st'.calls = st.calls ++ [SearchCall.mk v v (walkDirectionOf record1) maxDistance 10000] := by
  refine ⟨_, processPair_of_reaches env maxDistance st record1 record2 v v
    ⟨h1, h2, h3, hx, hy⟩, rfl, ?_⟩
  rw [outcome_calls]
  rfl

/-- Witness of the amended C5 on the pair whose two reads map to `X`. -/
theorem C5_same_vertex_witness :
    ∃ st', processPair sampleEnv 250 (ConnectState.init String) recA1 recA2onX = Except.ok st' ∧
      st' = countAttempt (writeOutcome sampleEnv
          (withCall (ConnectState.init String) "X" "X" (walkDirectionOf recA1) 250) recA1 recA2onX
          (sampleEnv.findWalks "X" "X" (walkDirectionOf recA1) 250 10000).walks) ∧
      st'.calls = [] ++ [SearchCall.mk "X" "X" (walkDirectionOf recA1) 250 10000] :=
  C5_same_vertex_pair_is_searched sampleEnv 250 (ConnectState.init String) recA1 recA2onX "X"
    rfl rfl rfl rfl rfl

/-- Claim C6, evaluated at the failing input: with the documented option `-m 100`
the parsed maximum distance is still 250 and the search of the run receives 250,
whereas `--max-distance=100` and `-d 100` make it 100, and no option leaves 250. -/
theorem C6_short_option_m_is_ignored :
    (parseConnectOptions id ["connect", "-m", "100", "g.asqg", "r.gmap"]).map
        (fun o => o.maxDistance) = Except.ok 250 ∧
    (connectMain sampleEnv id ["connect", "-m", "100", "g.asqg", "r.gmap"] [recA1, recA2]).map
        (fun st => st.calls.map (fun c => c.maxDistance)) = Except.ok [250] ∧
    (connectMain sampleEnv id ["connect", "--max-distance=100", "g.asqg", "r.gmap"]
        [recA1, recA2]).map
        (fun st => st.calls.map (fun c => c.maxDistance)) = Except.ok [100] ∧
    (connectMain sampleEnv id ["connect", "-d", "100", "g.asqg", "r.gmap"] [recA1, recA2]).map
        (fun st => st.calls.map (fun c => c.maxDistance)) = Except.ok [100] ∧
    (connectMain sampleEnv id ["connect", "g.asqg", "r.gmap"] [recA1, recA2]).map
        (fun st => st.calls.map (fun c => c.maxDistance)) = Except.ok [250] :=
  ⟨rfl, rfl, rfl, rfl, rfl⟩

/-- Claim C7: for a pair that reaches the search, the search is applied with the
direction `ED_SENSE` when the first record is not reverse-complemented and with its
inversion when it is: the state after the pair is the outcome written for the
walks that `findWalks` returns for start, target, this direction, the given maximum
distance and cap 10000, and the call recorded is this one. Changing only the
reverse-complement flag of the second record changes nothing in the processing of
the pair. -/
theorem C7_direction_from_first_record_only {V W : Type} (env : Env V W) (maxDistance : Int)
    (st : ConnectState V) (record1 record2 : GmapRecord) (pX pY : V)
    (h : ReachesSearch env record1 record2 pX pY) :
    (∃ st', processPair env maxDistance st record1 record2 = Except.ok st' ∧
      st' = countAttempt (writeOutcome env
          (withCall st pX pY
            (if record1.isRC = true then EdgeDir.not EdgeDir.ED_SENSE else EdgeDir.ED_SENSE)
            maxDistance) record1 record2
          (env.findWalks pX pY
            (if record1.isRC = true then EdgeDir.not EdgeDir.ED_SENSE else EdgeDir.ED_SENSE)
            maxDistance 10000).walks) ∧
      st'.calls = st.calls ++
        [SearchCall.mk pX pY
          (if record1.isRC = true then EdgeDir.not EdgeDir.ED_SENSE else EdgeDir.ED_SENSE)
          maxDistance 10000]) ∧
    ∀ b : Bool, processPair env maxDistance st record1 { record2 with isRC := b }
      = processPair env maxDistance st record1 record2 := by
  refine ⟨⟨_, processPair_of_reaches env maxDistance st record1 record2 pX pY h, rfl, ?_⟩, ?_⟩
  · rw [outcome_calls]
    rfl
  · intro b
    rfl

/-- Witness of C7 with the first record reverse-complemented: the search from `Y`
to `X` is applied in the antisense direction. -/
theorem C7_direction_witness :
    ReachesSearch sampleEnv recA2 recA1 "Y" "X" ∧
    ∃ st', processPair sampleEnv 250 (ConnectState.init String) recA2 recA1 = Except.ok st' ∧
      st' = countAttempt (writeOutcome sampleEnv
          (withCall (ConnectState.init String) "Y" "X"
            (if recA2.isRC = true then EdgeDir.not EdgeDir.ED_SENSE else EdgeDir.ED_SENSE)
            250) recA2 recA1
          (sampleEnv.findWalks "Y" "X"
            (if recA2.isRC = true then EdgeDir.not EdgeDir.ED_SENSE else EdgeDir.ED_SENSE)
            250 10000).walks) ∧
      st'.calls = [] ++ [SearchCall.mk "Y" "X"
        (if recA2.isRC = true then EdgeDir.not EdgeDir.ED_SENSE else EdgeDir.ED_SENSE)
        250 10000] :=
  ⟨⟨rfl, rfl, rfl, rfl, rfl⟩,
   (C7_direction_from_first_record_only sampleEnv 250 (ConnectState.init String) recA2 recA1
      "Y" "X" ⟨rfl, rfl, rfl, rfl, rfl⟩).1⟩

/-- Claim C8: for every pair in which either record is unmapped, or in which the
two identities are mates (the invariant of a pair) and either mapped vertex
identity is not found in the graph, the pair is skipped: the state after it is the
state before it (nothing written, no search call, both counters unchanged), the
run is not aborted and goes on with the rest of the stream. For an unmapped record
the invariant of the pair is not even needed. -/
theorem C8_unmapped_or_missing_vertex_skips {V W : Type} (env : Env V W) (maxDistance : Int)
    (st : ConnectState V) (record1 record2 : GmapRecord)
    (h : record1.isMapped = false ∨ record2.isMapped = false ∨
      (env.getPairID record1.readID = record2.readID ∧
        (env.getVertex record1.mappedID = none ∨ env.getVertex record2.mappedID = none))) :
    processPair env maxDistance st record1 record2 = Except.ok st ∧
    ∀ rest, connectLoop env maxDistance st (record1 :: record2 :: rest)
      = connectLoop env maxDistance st rest := by
  have hp : processPair env maxDistance st record1 record2 = Except.ok st := by
    cases h1 : record1.isMapped with
    | false => exact processPair_of_unmapped env maxDistance st record1 record2 (Or.inl h1)
    | true =>
      cases h2 : record2.isMapped with
      | false => exact processPair_of_unmapped env maxDistance st record1 record2 (Or.inr h2)
      | true =>
        rcases h with h | h | ⟨h3, h⟩
        · simp [h1] at h
        · simp [h2] at h
        · exact processPair_of_missing env maxDistance st record1 record2 h1 h2 h3 h
  refine ⟨hp, fun rest => ?_⟩
  simp [connectLoop, hp]

/-- Witness of C8: a correctly paired pair whose first vertex `Q` is
not in the graph is skipped. -/
theorem C8_skip_witness :
    (recA1onQ.isMapped = false ∨ recA2.isMapped = false ∨
      (sampleEnv.getPairID recA1onQ.readID = recA2.readID ∧
        (sampleEnv.getVertex recA1onQ.mappedID = none ∨
          sampleEnv.getVertex recA2.mappedID = none))) ∧
    processPair sampleEnv 250 (ConnectState.init String) recA1onQ recA2
      = Except.ok (ConnectState.init String) :=
  ⟨Or.inr (Or.inr ⟨rfl, Or.inl rfl⟩),
   (C8_unmapped_or_missing_vertex_skips sampleEnv 250 (ConnectState.init String) recA1onQ recA2
      (Or.inr (Or.inr ⟨rfl, Or.inl rfl⟩))).1⟩

/-- Claim C9: for a pair whose two records both map to existing vertices and pass
the pairing check, processing the pair raises the attempted counter by exactly 1,
and the resolved counter by exactly 1 if the search returned exactly one walk and
by 0 otherwise. -/
theorem C9_counters_of_attempted_pair {V W : Type} (env : Env V W) (maxDistance : Int)
    (st : ConnectState V) (record1 record2 : GmapRecord) (pX pY : V)
    (h : ReachesSearch env record1 record2 pX pY) :
    ∃ st', processPair env maxDistance st record1 record2 = Except.ok st' ∧
      st'.numPairsAttempted = st.numPairsAttempted + 1 ∧
      st'.numPairsResolved = st.numPairsResolved +
        (if (env.findWalks pX pY (walkDirectionOf record1) maxDistance 10000).walks.length = 1
          then 1 else 0) := by
  refine ⟨_, processPair_of_reaches env maxDistance st record1 record2 pX pY h, ?_⟩
  by_cases hl : (env.findWalks pX pY (walkDirectionOf record1) maxDistance 10000).walks.length = 1
  · obtain ⟨w, hw⟩ := eq_single_of_length _ hl
    rw [if_pos hl, hw, writeOutcome_single]
    exact ⟨rfl, rfl⟩
  · rw [if_neg hl, writeOutcome_other _ _ _ _ _ hl]
    simp [countAttempt, withCall]

/-- Witness of C9 on the sample pair, which is resolved. -/
theorem C9_counters_witness :
    ReachesSearch sampleEnv recA1 recA2 "X" "Y" ∧
    ∃ st', processPair sampleEnv 250 (ConnectState.init String) recA1 recA2 = Except.ok st' ∧
      st'.numPairsAttempted = 0 + 1 ∧
      st'.numPairsResolved = 0 +
        (if (sampleEnv.findWalks "X" "Y" (walkDirectionOf recA1) 250 10000).walks.length = 1
          then 1 else 0) :=
  ⟨⟨rfl, rfl, rfl, rfl, rfl⟩,
   C9_counters_of_attempted_pair sampleEnv 250 (ConnectState.init String) recA1 recA2
     "X" "Y" ⟨rfl, rfl, rfl, rfl, rfl⟩⟩

/-- Claim C10: for every command line and every stream of records, if the run
processes the stream without abort, then at its end the resolved counter is between
0 and the attempted counter, and the number of records written equals
resolved + 2 * (attempted - resolved). -/
theorem C10_run_accounting {V W : Type} (env : Env V W) (stripFilename : String → String)
    (argv : List String) (records : List GmapRecord) (st : ConnectState V)
    (h : connectMain env stripFilename argv records = Except.ok st) :
    0 ≤ st.numPairsResolved ∧ st.numPairsResolved ≤ st.numPairsAttempted ∧
    (st.output.length : Int)
      = st.numPairsResolved + 2 * (st.numPairsAttempted - st.numPairsResolved) := by
  unfold connectMain at h
  split at h
  · cases h
  · exact connectLoop_accounted env _ records (ConnectState.init V) st (init_accounted V) h

/-- Witness of C10: a run over a resolved pair, a skipped pair and an unresolved
pair ends with 1 resolved out of 2 attempted and 3 records written. -/
theorem C10_run_accounting_witness :
    ∃ st, connectMain sampleEnv id ["connect", "g.asqg", "r.gmap"]
        [recA1, recA2, recU1, recA2, recA1, recA2onM] = Except.ok st ∧
      st.numPairsResolved = 1 ∧ st.numPairsAttempted = 2 ∧ st.output.length = 3 ∧
      (0 ≤ st.numPairsResolved ∧ st.numPairsResolved ≤ st.numPairsAttempted ∧
        (st.output.length : Int)
          = st.numPairsResolved + 2 * (st.numPairsAttempted - st.numPairsResolved)) :=
  ⟨_, rfl, rfl, rfl, rfl,
   C10_run_accounting sampleEnv id ["connect", "g.asqg", "r.gmap"]
     [recA1, recA2, recU1, recA2, recA1, recA2onM] _ rfl⟩

end SGA
